import Mathlib

/-!
Verification development for the PDF-Bot quiz application (src/main.py).
The Python source is shallowly embedded below: pure string building and
dictionary manipulation become Lean functions on `String` and association
lists; the dynamic JSON values produced by the standard-library decoder
become the inductive type `Json`; exceptions that the source catches are
modelled as explicit `Option`/`Except` results, while exceptions the source
does not catch appear as `Except.error PyError.uncaught`.
-/

/-- A decoded JSON value, as produced by the Python standard-library
decoder used at src/main.py lines 57 and 94.  Numbers are modelled in the
integer fragment (no floats appear anywhere in the quiz wire format), and
objects keep their members as an ordered association list. -/
inductive Json where
  | null
  | bool (b : Bool)
  | num (n : Int)
  | str (s : String)
  | arr (elems : List Json)
  | obj (members : List (String × Json))

/-- Python truthiness of a decoded JSON value, used by the source in
conditions such as `if response:` (line 92) and `if st.session_state.quiz:`
(line 156). -/
def jsonTruthy : Json → Bool
  | Json.null => false
  | Json.bool b => b
  | Json.num n => n != 0
  | Json.str s => s != ""
  | Json.arr elems => !elems.isEmpty
  | Json.obj members => !members.isEmpty

/-- Skip JSON whitespace. -/
def skipWs : List Char → List Char
  | [] => []
  | c :: rest =>
    if c = ' ' ∨ c = '\n' ∨ c = '\t' ∨ c = '\r' then skipWs rest else c :: rest

/-- Decode a single-character JSON string escape (the `\uXXXX` form is not
needed by any input considered here and is rejected by this model). -/
def escChar (e : Char) : Option Char :=
  if e = '"' ∨ e = '\\' ∨ e = '/' then some e
  else if e = 'n' then some '\n'
  else if e = 't' then some '\t'
  else if e = 'r' then some '\r'
  else if e = 'b' then some (Char.ofNat 8)
  else if e = 'f' then some (Char.ofNat 12)
  else none

/-- Scan the body of a JSON string literal, after the opening quote.
Returns the decoded characters and the input remaining after the closing
quote. -/
def scanStringLit : List Char → Option (List Char × List Char)
  | [] => none
  | '"' :: rest => some ([], rest)
  | '\\' :: e :: rest =>
    match escChar e with
    | some c => (scanStringLit rest).map (fun p => (c :: p.1, p.2))
    | none => none
  | c :: rest => (scanStringLit rest).map (fun p => (c :: p.1, p.2))

/-- Scan a nonempty run of decimal digits into a natural number. -/
def scanNat (cs : List Char) : Option (Nat × List Char) :=
  let ds := cs.takeWhile (fun c => c.isDigit)
  if ds.isEmpty then none
  else some (ds.foldl (fun a c => a * 10 + (c.toNat - 48)) 0, cs.drop ds.length)

/-- Match an exact literal character sequence, returning the remainder. -/
def dropLit : List Char → List Char → Option (List Char)
  | [], rest => some rest
  | _ :: _, [] => none
  | l :: ls, c :: rest => if c = l then dropLit ls rest else none

mutual

/-- Fuel-indexed recursive-descent decoding of one JSON value. -/
def parseVal : Nat → List Char → Option (Json × List Char)
  | 0, _ => none
  | Nat.succ fuel, cs =>
    match skipWs cs with
    | [] => none
    | '"' :: rest => (scanStringLit rest).map (fun p => (Json.str (String.mk p.1), p.2))
    | '\x7b' :: rest =>
      match skipWs rest with
      | '\x7d' :: rest2 => some (Json.obj [], rest2)
      | rest2 => (parseMembers fuel rest2).map (fun p => (Json.obj p.1, p.2))
    | '[' :: rest =>
      match skipWs rest with
      | ']' :: rest2 => some (Json.arr [], rest2)
      | rest2 => (parseElems fuel rest2).map (fun p => (Json.arr p.1, p.2))
    | '-' :: rest => (scanNat rest).map (fun p => (Json.num (-(p.1 : Int)), p.2))
    | c :: rest =>
      if c.isDigit then
        (scanNat (c :: rest)).map (fun p => (Json.num (p.1 : Int), p.2))
      else
        match dropLit ['t', 'r', 'u', 'e'] (c :: rest) with
        | some r => some (Json.bool true, r)
        | none =>
          match dropLit ['f', 'a', 'l', 's', 'e'] (c :: rest) with
          | some r => some (Json.bool false, r)
          | none =>
            match dropLit ['n', 'u', 'l', 'l'] (c :: rest) with
            | some r => some (Json.null, r)
            | none => none

/-- Fuel-indexed decoding of the members of a JSON object, positioned on
the first key (the empty-object case is handled by `parseVal`). -/
def parseMembers : Nat → List Char → Option (List (String × Json) × List Char)
  | 0, _ => none
  | Nat.succ fuel, cs =>
    match skipWs cs with
    | '"' :: rest =>
      match scanStringLit rest with
      | none => none
      | some (key, rest2) =>
        match skipWs rest2 with
        | ':' :: rest3 =>
          match parseVal fuel rest3 with
          | none => none
          | some (v, rest4) =>
            match skipWs rest4 with
            | ',' :: rest5 =>
              (parseMembers fuel rest5).map (fun p => ((String.mk key, v) :: p.1, p.2))
            | '\x7d' :: rest5 => some ([(String.mk key, v)], rest5)
            | _ => none
        | _ => none
    | _ => none

/-- Fuel-indexed decoding of the elements of a JSON array, positioned on
the first element (the empty-array case is handled by `parseVal`). -/
def parseElems : Nat → List Char → Option (List Json × List Char)
  | 0, _ => none
  | Nat.succ fuel, cs =>
    match parseVal fuel cs with
    | none => none
    | some (v, rest) =>
      match skipWs rest with
      | ',' :: rest2 => (parseElems fuel rest2).map (fun p => (v :: p.1, p.2))
      | ']' :: rest2 => some ([v], rest2)
      | _ => none

end

/-- Model of the Python standard-library `json.loads` on the JSON fragment
used by this program: `some` is a successful decode of the whole input
(trailing whitespace allowed), `none` is the decode error the source
catches at line 96.  Every recursive-descent step consumes at least one
character before recursing, so fuel `s.length + 1` never runs out on a
decodable input. -/
def json_loads (s : String) : Option Json :=
  match parseVal (s.length + 1) s.data with
  | some (v, rest) => if (skipWs rest).isEmpty then some v else none
  | none => none

/-- An exception that the Python source does not catch at the point where
it can be raised (KeyError, TypeError, or a converter failure): it escapes
the handler instead of being turned into a user-visible message. -/
inductive PyError where
  | uncaught

/-- The branch taken by `convert_to_pdf` (src/main.py lines 22-38) for a
given file extension. -/
inductive ConvertStep where
  /-- Extension `.pptx`: the presentation is re-saved via the presentation
  library (line 31-32). -/
  | presentationResave
  /-- Extension `.docx`: the word-processor converter is invoked
  (line 34). -/
  | docxConvert
  /-- Any other extension: the temporary file is renamed to `<name>.pdf`
  and treated as a portable document from then on (line 36). -/
  | renameToPdf

/-- The Python `str.lower()` on the ASCII extensions this program
compares against, modelled as a character-wise lowercase map. -/
def str_toLower (s : String) : String :=
  String.mk (s.data.map Char.toLower)

/-- Lines 22-38: the extension dispatch of `convert_to_pdf`.  The argument
is the result of `os.path.splitext(file.name)[1]` (a standard-library
call, taken as given); the source lowercases it (line 23) and branches.
No branch raises a format error: the `else` branch assumes the file is
already a portable document. -/
def convert_to_pdf_step (ext : String) : ConvertStep :=
  let file_extension := str_toLower ext
  if file_extension = ".pptx" then ConvertStep.presentationResave
  else if file_extension = ".docx" then ConvertStep.docxConvert
  else ConvertStep.renameToPdf

/-- The outcome of the `requests.post` call at line 55: either a response
object carrying a status code and a body text, or a raised
`RequestException` (connection refused, DNS failure, timeout). -/
inductive HttpOutcome where
  | response (status_code : Nat) (text : String)
  | requestException (detail : String)

/-- The observable result of `query_ollama` (lines 47-63). -/
inductive QueryResult where
  /-- Status 200 and the decoded body had a `response` member: that member
  is returned as-is (line 57). -/
  | ok (v : Json)
  /-- Non-200 status: `st.error("API Error: ...")` and `None`
  (lines 59-60). -/
  | apiError (status_code : Nat) (text : String)
  /-- `RequestException`: `st.error("Connection Error: ...")` and `None`
  (lines 62-63). -/
  | connectionError (detail : String)
  /-- Status 200 but `json.loads(response.text)["response"]` raised
  (body not valid JSON, not an object, or missing the key); nothing in
  `query_ollama` catches these. -/
  | uncaughtException

/-- Line 51: the prompt string posted to the inference endpoint. -/
def ollama_prompt (context task : String) : String :=
  "Context: " ++ context ++ "\n\nTask: " ++ task ++ "\n\nResponse:"

/-- Lines 54-63: how `query_ollama` maps the outcome of the HTTP post to
its returned value.  Success is tested with `status_code == 200` exactly. -/
def query_ollama_response (outcome : HttpOutcome) : QueryResult :=
  match outcome with
  | HttpOutcome.requestException detail => QueryResult.connectionError detail
  | HttpOutcome.response status_code text =>
    if status_code = 200 then
      match json_loads text with
      | some (Json.obj members) =>
        match members.lookup "response" with
        | some v => QueryResult.ok v
        | none => QueryResult.uncaughtException
      | some _ => QueryResult.uncaughtException
      | none => QueryResult.uncaughtException
    else QueryResult.apiError status_code text

/-- Lines 47-63: `query_ollama`, with the external server modelled as a
function from the posted prompt to the transport outcome. -/
def query_ollama (context task : String) (infer : String → HttpOutcome) : QueryResult :=
  query_ollama_response (infer (ollama_prompt context task))

/-- Fragment of the quiz task string (source line 68): the topic-relevance
and grammar-topic instruction between the two interpolations of the
context. -/
def qtGrammarNote : String :=
  ". Also if the questions is for learning a language or grammar \n    like \x27take a quiz on present tense\x27 or any other tense I expect you to prepare questions and options like this\n    "

/-- Fragment of the quiz task string (source lines 70-87): everything after
the meta-question prohibition, ending with the JSON output template of the
triple-quoted f-string (the doubled braces of the f-string denote literal
braces). -/
def qtFormatNote : String :=
  " like \x27What is the purpose of this quiz?\x27\n    Format the output as a JSON string with the following structure:\n    \x7b\n        \"questions\": [\n            \x7b\n                \"question\": \"Question text here\",\n                \"options\": \x7b\n                    \"A\": \"Option A text\",\n                    \"B\": \"Option B text\",\n                    \"C\": \"Option C text\",\n                    \"D\": \"Option D text\"\n                \x7d,\n                \"correct_answer\": \"Correct option letter\"\n            \x7d,\n            ...\n        ]\n    \x7d\n    "

/-- Lines 66-87: the quiz task string built by `generate_quiz`, transcribed
byte-for-byte from the Python f-string (including the trailing blanks of
source lines 66 and 68 and the indentation of the triple-quoted string).
The concatenation is grouped so that each instruction the specification
talks about is a chunk of its own. -/
def generate_quiz_task (context : String) (num_questions : Nat) : String :=
  "Generate a quiz with " ++ toString num_questions ++ " multiple-choice questions"
  ++ " based on the given context: \"" ++ context
  ++ "\". \n    For each question, "
  ++ "provide 4 options (A, B, C, D) and indicate the correct answer"
  ++ ".\n    Ensure the questions are relevant to the topic: " ++ context
  ++ qtGrammarNote
  ++ "Do not include meta-level questions"
  ++ qtFormatNote

/-- Lines 104-106: the summary task string built by `summarize_content`,
transcribed byte-for-byte. -/
def summarize_task (context : String) : String :=
  "Summarize the following content: \"" ++ context
  ++ "\". \n    Provide a concise summary that captures the main points and key information.\n    "

/-- Lines 93-98: the parse of the model response inside `generate_quiz`.
The source is exactly `json.loads(response)` with `JSONDecodeError` caught:
on invalid JSON it shows the message about the response not being valid
JSON and returns `None` (the malformed case); no other validation of the
decoded value is performed. -/
def generate_quiz_parse (response : String) : Option Json :=
  json_loads response

/-- Lines 65-101: `generate_quiz`.  `Except.ok none` is the handled-failure
return `None` (inference failed, falsy response, or the caught decode
error); `Except.error` is the uncaught `TypeError` raised by
`json.loads` on a truthy non-string response. -/
def generate_quiz (context : String) (num_questions : Nat)
    (infer : String → HttpOutcome) : Except PyError (Option Json) :=
  match query_ollama context (generate_quiz_task context num_questions) infer with
  | QueryResult.ok v =>
    if jsonTruthy v then
      match v with
      | Json.str s => Except.ok (generate_quiz_parse s)
      | _ => Except.error PyError.uncaught
    else Except.ok none
  | QueryResult.apiError _ _ => Except.ok none
  | QueryResult.connectionError _ => Except.ok none
  | QueryResult.uncaughtException => Except.error PyError.uncaught

/-- Lines 103-115: `summarize_content`: returns the raw response when it is
truthy, otherwise shows an error message and returns `None`. -/
def summarize_content (context : String) (infer : String → HttpOutcome) :
    Except PyError (Option Json) :=
  match query_ollama context (summarize_task context) infer with
  | QueryResult.ok v => if jsonTruthy v then Except.ok (some v) else Except.ok none
  | QueryResult.apiError _ _ => Except.ok none
  | QueryResult.connectionError _ => Except.ok none
  | QueryResult.uncaughtException => Except.error PyError.uncaught

/-- The session-scoped state held in `st.session_state`
(src/main.py lines 10-20).  The answer sheet is the dictionary
`user_answers` from question index to selected label; `quiz` and `summary`
are `None`-able decoded JSON values. -/
structure SessionState where
  pdf_text : String
  custom_prompt : String
  quiz : Option Json
  user_answers : List (Nat × String)
  summary : Option Json

/-- Line 149: `context = st.session_state.custom_prompt or
st.session_state.pdf_text` — Python `or` yields the first operand when it
is truthy (a non-empty string), the second otherwise. -/
def resolve_context (s : SessionState) : String :=
  if s.custom_prompt = "" then s.pdf_text else s.custom_prompt

/-- The artifact kind selected by the radio control at line 146. -/
inductive ContentType where
  | quiz
  | summary

/-- Lines 148-154: the Generate button handler.  On the quiz branch it
assigns `st.session_state.quiz = generate_quiz(context, num_questions)`
and then `st.session_state.user_answers = {}`; on the summary branch it
assigns `st.session_state.summary = summarize_content(context)`.  An
uncaught exception from the callee aborts the handler before either
assignment takes effect. -/
def generate_handler (s : SessionState) (content_type : ContentType)
    (num_questions : Nat) (infer : String → HttpOutcome) :
    Except PyError SessionState :=
  let context := resolve_context s
  match content_type with
  | ContentType.quiz =>
    match generate_quiz context num_questions infer with
    | Except.error e => Except.error e
    | Except.ok q => Except.ok { s with quiz := q, user_answers := [] }
  | ContentType.summary =>
    match summarize_content context infer with
    | Except.error e => Except.error e
    | Except.ok r => Except.ok { s with summary := r }

/-- Lines 167-174: the per-question body of the Check Answers loop.
`q['correct_answer']` is read first (KeyError if absent, TypeError if the
question is not an object); an answer equal to the correct label counts;
otherwise the incorrect-answer message reads `q['options'][correct_answer]`
to display the correct option text, which raises when `options` is absent,
not an object, or lacks the `correct_answer` key, and also when the correct
answer is not a string (a non-string key is never present in a decoded
JSON object). -/
def check_question (q : Json) (user_answer : Option String) : Except PyError Bool :=
  match q with
  | Json.obj f =>
    match f.lookup "correct_answer" with
    | some correct_answer =>
      if (match correct_answer, user_answer with
          | Json.str c, some u => u == c
          | _, _ => false) then Except.ok true
      else
        match f.lookup "options" with
        | some (Json.obj opts) =>
          match correct_answer with
          | Json.str c =>
            match opts.lookup c with
            | some _ => Except.ok false
            | none => Except.error PyError.uncaught
          | _ => Except.error PyError.uncaught
        | _ => Except.error PyError.uncaught
    | none => Except.error PyError.uncaught
  | _ => Except.error PyError.uncaught

/-- Lines 166-172: the `enumerate` loop of the Check Answers handler,
carrying the running index and score. -/
def checkLoop (sheet : List (Nat × String)) :
    List Json → Nat → Nat → Except PyError Nat
  | [], _, score => Except.ok score
  | q :: rest, i, score =>
    match check_question q (sheet.lookup i) with
    | Except.error e => Except.error e
    | Except.ok true => checkLoop sheet rest (i + 1) (score + 1)
    | Except.ok false => checkLoop sheet rest (i + 1) score

/-- Lines 165-175: the Check Answers handler: iterates over
`quiz["questions"]`, scoring each question against
`user_answers.get(i)`, and reports `score` out of
`len(quiz["questions"])`.  A quiz value on which `quiz["questions"]` is
not a list of question objects raises; this model reports `uncaught` there
(the source would raise on the first dynamic access that fails). -/
def check_answers (quiz : Json) (sheet : List (Nat × String)) :
    Except PyError (Nat × Nat) :=
  match quiz with
  | Json.obj f =>
    match f.lookup "questions" with
    | some (Json.arr qs) =>
      match checkLoop sheet qs 0 0 with
      | Except.error e => Except.error e
      | Except.ok score => Except.ok (score, qs.length)
    | some _ => Except.error PyError.uncaught
    | none => Except.error PyError.uncaught
  | _ => Except.error PyError.uncaught

/-- The four labels of the quiz wire format. -/
def fourLabels : List String := ["A", "B", "C", "D"]

/-- The per-question shape invariant stated by the specification: the
question is an object whose `options` member is an object whose key set is
exactly the 4-label set, and whose `correct_answer` is one of those
labels. -/
def questionInvariant (q : Json) : Bool :=
  match q with
  | Json.obj f =>
    match f.lookup "options", f.lookup "correct_answer" with
    | some (Json.obj opts), some (Json.str ca) =>
      opts.all (fun p => fourLabels.contains p.1)
        && fourLabels.all (fun l => (opts.lookup l).isSome)
        && fourLabels.contains ca
    | _, _ => false
  | _ => false

/-- The specification's Quiz invariant: a `questions` list whose every
element satisfies `questionInvariant`. -/
def quizInvariant (quiz : Json) : Bool :=
  match quiz with
  | Json.obj f =>
    match f.lookup "questions" with
    | some (Json.arr qs) => qs.all questionInvariant
    | _ => false
  | _ => false

/-- The weakest precondition under which the Check Answers loop body never
raises: the question is an object whose `correct_answer` is a string key
present in its `options` object. -/
def questionScorable (q : Json) : Bool :=
  match q with
  | Json.obj f =>
    match f.lookup "correct_answer", f.lookup "options" with
    | some (Json.str c), some (Json.obj opts) => (opts.lookup c).isSome
    | _, _ => false
  | _ => false

/-- A quiz value whose `questions` member is a list of scorable
questions. -/
def quizScorable (quiz : Json) : Bool :=
  match quiz with
  | Json.obj f =>
    match f.lookup "questions" with
    | some (Json.arr qs) => qs.all questionScorable
    | _ => false
  | _ => false

/-- Specification-side correctness of one answer: the sheet entry equals
the question declared correct answer. -/
def answeredCorrectly (q : Json) (ans : Option String) : Bool :=
  match q, ans with
  | Json.obj f, some u =>
    match f.lookup "correct_answer" with
    | some (Json.str c) => u == c
    | _ => false
  | _, _ => false

/-- Specification-side score: the number of indices `i` in
`[0, qs.length)` whose sheet entry equals the corresponding question
correct answer. -/
def num_correct (qs : List Json) (sheet : List (Nat × String)) : Nat :=
  (List.range qs.length).countP (fun i => answeredCorrectly (qs.getD i Json.null) (sheet.lookup i))

/-- The number of correct answers among the questions `qs`, which occupy
indices `i, i + 1, ...` of the sheet: the accumulator-free description of
what the Check Answers loop counts. -/
def countCorrectFrom (sheet : List (Nat × String)) : List Json → Nat → Nat
  | [], _ => 0
  | q :: rest, i =>
    (if answeredCorrectly q (sheet.lookup i) then 1 else 0) + countCorrectFrom sheet rest (i + 1)

/-! ## Claim theorems -/

/-- Claim C1, counterexample: the response `"\x7b\x7d"` (an empty JSON
object) is missing every required field, yet `generate_quiz_parse` accepts
it and produces a quiz value that violates the 4-option invariant — the
source performs no schema validation at all, so parse success does not
imply the invariant and no schema-violation failure exists. -/
theorem parse_accepts_schema_violation :
    generate_quiz_parse "\x7b\x7d" = some (Json.obj [])
      ∧ quizInvariant (Json.obj []) = false :=
  ⟨rfl, rfl⟩

/-- Claim C1, amended: `generate_quiz_parse` succeeds on every response
that is valid JSON, returning the decoded value unchecked; required fields
and the 4-label option set are never validated, so a produced quiz value
need not satisfy the 4-option invariant, and the only parse failure is the
malformed (invalid JSON) case. -/
theorem parse_succeeds_on_any_valid_json (s : String) (j : Json)
    (h : json_loads s = some j) : generate_quiz_parse s = some j :=
  h

/-- Witness for `parse_succeeds_on_any_valid_json` at a response whose
decoded value is far from a well-formed quiz. -/
theorem parse_succeeds_on_any_valid_json_witness :
    json_loads "\x7b\"questions\": 0\x7d" = some (Json.obj [("questions", Json.num 0)])
      ∧ generate_quiz_parse "\x7b\"questions\": 0\x7d"
          = some (Json.obj [("questions", Json.num 0)]) :=
  ⟨rfl, parse_succeeds_on_any_valid_json _ _ rfl⟩

/-- Claim C5: on a response string that is not valid structured data the
parse inside `generate_quiz` fails as a whole — the decode error is caught,
no quiz value is produced (`None` is returned), and there is no partial
recovery; consequently the full `generate_quiz` call returns `None` when
the inference response is such a string. -/
theorem parse_malformed_yields_no_quiz (s context : String) (n : Nat)
    (infer : String → HttpOutcome)
    (hq : query_ollama context (generate_quiz_task context n) infer
            = QueryResult.ok (Json.str s))
    (h : json_loads s = none) :
    generate_quiz_parse s = none ∧ generate_quiz context n infer = Except.ok none := by
  constructor
  · exact h
  · unfold generate_quiz
    rw [hq]
    by_cases hs : s = ""
    · simp [jsonTruthy, hs]
    · simp [jsonTruthy, hs, generate_quiz_parse, h]

/-- Witness for `parse_malformed_yields_no_quiz` on the response
`"not json"`. -/
theorem parse_malformed_yields_no_quiz_witness :
    query_ollama "ctx" (generate_quiz_task "ctx" 1)
        (fun _ => HttpOutcome.response 200 "\x7b\"response\": \"not json\"\x7d")
        = QueryResult.ok (Json.str "not json")
      ∧ json_loads "not json" = none
      ∧ generate_quiz_parse "not json" = none
      ∧ generate_quiz "ctx" 1
          (fun _ => HttpOutcome.response 200 "\x7b\"response\": \"not json\"\x7d")
          = Except.ok none := by
  refine ⟨rfl, rfl, ?_⟩
  exact parse_malformed_yields_no_quiz "not json" "ctx" 1 _ rfl rfl

/-- Claim C6, counterexample: a file whose declared format (extension) is
`.txt` — not one of the three supported formats — is not rejected:
`convert_to_pdf` silently renames it to `.pdf` and treats it as a portable
document; no unsupported-format failure exists in the code. -/
theorem convert_txt_not_rejected :
    convert_to_pdf_step ".txt" = ConvertStep.renameToPdf := by
  rfl

/-- Claim C6, amended: `convert_to_pdf` dispatches on the lowercased file
extension — `.pptx` is re-saved via the presentation library, `.docx` goes
through the word-processor converter, and every other extension is renamed
in place and treated as a portable document; no unsupported-format error is
ever raised (the upload widget alone restricts the selectable types), and a
converter failure propagates as an uncaught exception rather than a typed
conversion error. -/
theorem convert_to_pdf_dispatch (ext : String)
    (h1 : str_toLower ext ≠ ".pptx") (h2 : str_toLower ext ≠ ".docx") :
    convert_to_pdf_step ext = ConvertStep.renameToPdf := by
  simp [convert_to_pdf_step, h1, h2]

/-- Witness for `convert_to_pdf_dispatch` on the uppercase extension
`.TXT` (exercising the lowercasing as well). -/
theorem convert_to_pdf_dispatch_witness :
    str_toLower ".TXT" ≠ ".pptx" ∧ str_toLower ".TXT" ≠ ".docx"
      ∧ convert_to_pdf_step ".TXT" = ConvertStep.renameToPdf :=
  ⟨by decide, by decide, convert_to_pdf_dispatch ".TXT" (by decide) (by decide)⟩

/-- Claim C7, counterexample: status 201 is a 2xx success status carrying a
well-formed body, yet `query_ollama` treats it as a server error (error
message and `None`) because the source tests `status_code == 200` exactly,
not membership in the 2xx class. -/
theorem status_201_not_treated_as_success :
    query_ollama_response (HttpOutcome.response 201 "\x7b\"response\": \"ok\"\x7d")
        = QueryResult.apiError 201 "\x7b\"response\": \"ok\"\x7d"
      ∧ 200 ≤ 201 ∧ 201 < 300 :=
  ⟨rfl, by decide⟩

/-- Claim C7, amended: success for `query_ollama` is exactly status 200.
A transport-level failure maps to the connection-error path with its
detail; any status other than 200 (including every other 2xx status) maps
to the server-error path with the status and body; on status 200 with a
JSON-object body containing a `response` member, that member is returned
exactly, unparsed and uninterpreted. -/
theorem query_ollama_response_spec :
    (∀ detail, query_ollama_response (HttpOutcome.requestException detail)
        = QueryResult.connectionError detail)
      ∧ (∀ status_code text, status_code ≠ 200 →
          query_ollama_response (HttpOutcome.response status_code text)
            = QueryResult.apiError status_code text)
      ∧ (∀ text members v, json_loads text = some (Json.obj members) →
          members.lookup "response" = some v →
          query_ollama_response (HttpOutcome.response 200 text) = QueryResult.ok v) := by
  refine ⟨fun d => rfl, fun sc t h => ?_, fun t m v h1 h2 => ?_⟩
  · simp [query_ollama_response, h]
  · simp [query_ollama_response, h1, h2]

/-- Witness for `query_ollama_response_spec` on a transport failure, a
500 status, and a successful 200 response. -/
theorem query_ollama_response_spec_witness :
    query_ollama_response (HttpOutcome.requestException "refused")
        = QueryResult.connectionError "refused"
      ∧ query_ollama_response (HttpOutcome.response 500 "oops")
          = QueryResult.apiError 500 "oops"
      ∧ query_ollama_response (HttpOutcome.response 200 "\x7b\"response\": \"hi\"\x7d")
          = QueryResult.ok (Json.str "hi") :=
  ⟨query_ollama_response_spec.1 "refused",
   query_ollama_response_spec.2.1 500 "oops" (by decide),
   query_ollama_response_spec.2.2 _ [("response", Json.str "hi")] _ rfl rfl⟩

/-- A scorable question is handled without an exception by the loop body of
the Check Answers handler, and the loop body counts it exactly when the
sheet entry equals its declared correct answer. -/
theorem check_question_ok (q : Json) (ans : Option String)
    (h : questionScorable q = true) :
    check_question q ans = Except.ok (answeredCorrectly q ans) := by
  cases q with
  | obj f =>
    cases hca : f.lookup "correct_answer" with
    | none => simp [questionScorable, hca] at h
    | some ca =>
      cases hopts : f.lookup "options" with
      | none => simp [questionScorable, hca, hopts] at h
      | some ov =>
        cases ca with
        | str c =>
          cases ov with
          | obj opts =>
            simp only [questionScorable, hca, hopts] at h
            cases hl : opts.lookup c with
            | none => rw [hl] at h; simp at h
            | some w =>
              cases ans with
              | none => simp [check_question, answeredCorrectly, hca, hopts, hl]
              | some u =>
                cases hu : (u == c) <;>
                  simp [check_question, answeredCorrectly, hca, hopts, hl, hu]
          | null => simp [questionScorable, hca, hopts] at h
          | bool b => simp [questionScorable, hca, hopts] at h
          | num m => simp [questionScorable, hca, hopts] at h
          | str t => simp [questionScorable, hca, hopts] at h
          | arr xs => simp [questionScorable, hca, hopts] at h
        | null => simp [questionScorable, hca, hopts] at h
        | bool b => simp [questionScorable, hca, hopts] at h
        | num m => simp [questionScorable, hca, hopts] at h
        | arr xs => simp [questionScorable, hca, hopts] at h
        | obj g => simp [questionScorable, hca, hopts] at h
  | null => simp [questionScorable] at h
  | bool b => simp [questionScorable] at h
  | num n => simp [questionScorable] at h
  | str s => simp [questionScorable] at h
  | arr xs => simp [questionScorable] at h

/-- On a list of scorable questions the Check Answers loop never raises
and adds to its accumulator exactly the count of correct answers from the
starting index on. -/
theorem checkLoop_ok (sheet : List (Nat × String)) (qs : List Json) (i score : Nat)
    (h : qs.all questionScorable = true) :
    checkLoop sheet qs i score = Except.ok (score + countCorrectFrom sheet qs i) := by
  induction qs generalizing i score with
  | nil => simp [checkLoop, countCorrectFrom]
  | cons q rest ih =>
    simp only [List.all_cons, Bool.and_eq_true] at h
    obtain ⟨h1, h2⟩ := h
    rw [checkLoop, check_question_ok q _ h1]
    cases hb : answeredCorrectly q (sheet.lookup i)
    · show checkLoop sheet rest (i + 1) score = _
      rw [ih (i + 1) score h2]
      have hcf : countCorrectFrom sheet (q :: rest) i = countCorrectFrom sheet rest (i + 1) := by
        simp [countCorrectFrom, hb]
      rw [hcf]
    · show checkLoop sheet rest (i + 1) (score + 1) = _
      rw [ih (i + 1) (score + 1) h2]
      have hcf : countCorrectFrom sheet (q :: rest) i = 1 + countCorrectFrom sheet rest (i + 1) := by
        simp [countCorrectFrom, hb]
      rw [hcf]
      exact congrArg Except.ok (by omega)

/-- The running count of the Check Answers loop agrees with the
index-set description: it is the number of positions `j` below the number
of questions whose sheet entry at index `i + j` is correct. -/
theorem countCorrectFrom_eq (sheet : List (Nat × String)) (qs : List Json) (i : Nat) :
    countCorrectFrom sheet qs i
      = (List.range qs.length).countP
          (fun j => answeredCorrectly (qs.getD j Json.null) (sheet.lookup (i + j))) := by
  induction qs generalizing i with
  | nil => simp [countCorrectFrom]
  | cons q rest ih =>
    rw [countCorrectFrom, List.length_cons, List.range_succ_eq_map, List.countP_cons,
      List.countP_map]
    have hfun :
        ((fun j => answeredCorrectly ((q :: rest).getD j Json.null) (sheet.lookup (i + j)))
            ∘ Nat.succ)
          = fun j => answeredCorrectly (rest.getD j Json.null) (sheet.lookup ((i + 1) + j)) := by
      funext j
      have harg : i + (j + 1) = (i + 1) + j := by omega
      simp only [Function.comp, List.getD_cons_succ]
      rw [harg]
    rw [hfun, ← ih]
    simp [Nat.add_comm]

/-- Claim C2: for a quiz whose questions list is scorable (every declared
correct answer is a key of its own options mapping — the validity the Quiz
data model guarantees), the Check Answers handler returns a total equal to
the number of questions and a correct count equal to the number of indices
`i` in `[0, len)` whose sheet entry equals that question's correct answer;
a missing sheet entry simply fails the comparison (it is incorrect, never
an error), and the correct count never exceeds the total. -/
theorem check_answers_scores (qf : List (String × Json)) (qs : List Json)
    (sheet : List (Nat × String))
    (hq : qf.lookup "questions" = some (Json.arr qs))
    (hwf : qs.all questionScorable = true) :
    check_answers (Json.obj qf) sheet = Except.ok (num_correct qs sheet, qs.length)
      ∧ num_correct qs sheet ≤ qs.length := by
  constructor
  · simp only [check_answers, hq, checkLoop_ok sheet qs 0 0 hwf]
    rw [Nat.zero_add, countCorrectFrom_eq]
    have hfun : (fun j => answeredCorrectly (qs.getD j Json.null) (sheet.lookup (0 + j)))
        = fun j => answeredCorrectly (qs.getD j Json.null) (sheet.lookup j) := by
      funext j
      rw [Nat.zero_add]
    rw [hfun]
    rfl
  · calc num_correct qs sheet ≤ (List.range qs.length).length :=
          List.countP_le_length _
    _ = qs.length := List.length_range _

/-- Witness for `check_answers_scores`: the one-question quiz of the
specification's worked example, answered `A` against correct answer `B`,
scores 0 out of 1. -/
theorem check_answers_scores_witness :
    ([("questions", Json.arr [Json.obj [("question", Json.str "Q1"),
        ("options", Json.obj [("A", Json.str "x"), ("B", Json.str "y"),
          ("C", Json.str "z"), ("D", Json.str "w")]),
        ("correct_answer", Json.str "B")]])] : List (String × Json)).lookup "questions"
        = some (Json.arr [Json.obj [("question", Json.str "Q1"),
            ("options", Json.obj [("A", Json.str "x"), ("B", Json.str "y"),
              ("C", Json.str "z"), ("D", Json.str "w")]),
            ("correct_answer", Json.str "B")]])
      ∧ check_answers
          (Json.obj [("questions", Json.arr [Json.obj [("question", Json.str "Q1"),
            ("options", Json.obj [("A", Json.str "x"), ("B", Json.str "y"),
              ("C", Json.str "z"), ("D", Json.str "w")]),
            ("correct_answer", Json.str "B")]])])
          [(0, "A")]
          = Except.ok (0, 1) :=
  ⟨rfl,
   (check_answers_scores
     [("questions", Json.arr [Json.obj [("question", Json.str "Q1"),
        ("options", Json.obj [("A", Json.str "x"), ("B", Json.str "y"),
          ("C", Json.str "z"), ("D", Json.str "w")]),
        ("correct_answer", Json.str "B")]])]
     [Json.obj [("question", Json.str "Q1"),
        ("options", Json.obj [("A", Json.str "x"), ("B", Json.str "y"),
          ("C", Json.str "z"), ("D", Json.str "w")]),
        ("correct_answer", Json.str "B")]] [(0, "A")] rfl rfl).1⟩

/-- Claim C10: the Check Answers computation is total under the
precondition that every question's declared correct answer is a key of
that question's options mapping — the lookup of the correct option text on
the incorrect/unanswered path is then always defined, so the handler
returns a result rather than raising. -/
theorem check_answers_total (quiz : Json) (sheet : List (Nat × String))
    (h : quizScorable quiz = true) :
    ∃ r, check_answers quiz sheet = Except.ok r := by
  cases quiz with
  | obj f =>
    cases hq : f.lookup "questions" with
    | none => simp [quizScorable, hq] at h
    | some v =>
      cases v with
      | arr qs =>
        simp only [quizScorable, hq] at h
        refine ⟨(0 + countCorrectFrom sheet qs 0, qs.length), ?_⟩
        simp only [check_answers, hq, checkLoop_ok sheet qs 0 0 h]
      | null => simp [quizScorable, hq] at h
      | bool b => simp [quizScorable, hq] at h
      | num n => simp [quizScorable, hq] at h
      | str s => simp [quizScorable, hq] at h
      | obj g => simp [quizScorable, hq] at h
  | null => simp [quizScorable] at h
  | bool b => simp [quizScorable] at h
  | num n => simp [quizScorable] at h
  | str s => simp [quizScorable] at h
  | arr xs => simp [quizScorable] at h

/-- Witness for `check_answers_total`: the same one-question quiz,
answered entirely unanswered at no index but with a well-defined correct
key, is scored without an exception. -/
theorem check_answers_total_witness :
    quizScorable (Json.obj [("questions", Json.arr [Json.obj [("question", Json.str "Q1"),
        ("options", Json.obj [("A", Json.str "x"), ("B", Json.str "y"),
          ("C", Json.str "z"), ("D", Json.str "w")]),
        ("correct_answer", Json.str "B")]])]) = true
      ∧ ∃ r, check_answers
          (Json.obj [("questions", Json.arr [Json.obj [("question", Json.str "Q1"),
            ("options", Json.obj [("A", Json.str "x"), ("B", Json.str "y"),
              ("C", Json.str "z"), ("D", Json.str "w")]),
            ("correct_answer", Json.str "B")]])])
          [(0, "B")]
          = Except.ok r :=
  ⟨rfl, check_answers_total
    (Json.obj [("questions", Json.arr [Json.obj [("question", Json.str "Q1"),
      ("options", Json.obj [("A", Json.str "x"), ("B", Json.str "y"),
        ("C", Json.str "z"), ("D", Json.str "w")]),
      ("correct_answer", Json.str "B")]])]) [(0, "B")] rfl⟩

/-- Claim C3: whenever a generation action of kind Quiz yields a new state
in which a quiz is installed (a successful parse), the answer sheet of
that state is empty — the reset is part of the same transition, so no
entry recorded against a previous quiz is ever scored against the new
one. -/
theorem new_quiz_resets_answer_sheet (s : SessionState) (n : Nat)
    (infer : String → HttpOutcome) (s2 : SessionState) (q : Json)
    (h : generate_handler s ContentType.quiz n infer = Except.ok s2)
    (hq : s2.quiz = some q) :
    s2.user_answers = [] := by
  simp only [generate_handler] at h
  cases hgen : generate_quiz (resolve_context s) n infer with
  | error e => rw [hgen] at h; cases h
  | ok qv =>
    rw [hgen] at h
    cases h
    rfl

/-- Witness for `new_quiz_resets_answer_sheet`: a state holding an old
quiz and a recorded answer, regenerated from a 200 response carrying an
empty-quiz JSON string, ends with the new quiz installed and an empty
sheet. -/
theorem new_quiz_resets_answer_sheet_witness :
    generate_handler (SessionState.mk "" "make a quiz" (some (Json.str "old")) [(0, "A")] none)
        ContentType.quiz 1
        (fun _ => HttpOutcome.response 200 "\x7b\"response\": \"\x7b\\\"questions\\\": []\x7d\"\x7d")
        = Except.ok (SessionState.mk "" "make a quiz"
            (some (Json.obj [("questions", Json.arr [])])) [] none)
      ∧ (SessionState.mk "" "make a quiz"
            (some (Json.obj [("questions", Json.arr [])])) [] none).quiz
          = some (Json.obj [("questions", Json.arr [])])
      ∧ (SessionState.mk "" "make a quiz"
            (some (Json.obj [("questions", Json.arr [])])) [] none).user_answers = [] :=
  ⟨rfl, rfl,
   new_quiz_resets_answer_sheet
     (SessionState.mk "" "make a quiz" (some (Json.str "old")) [(0, "A")] none) 1
     (fun _ => HttpOutcome.response 200 "\x7b\"response\": \"\x7b\\\"questions\\\": []\x7d\"\x7d")
     (SessionState.mk "" "make a quiz" (some (Json.obj [("questions", Json.arr [])])) [] none)
     (Json.obj [("questions", Json.arr [])]) rfl rfl⟩

/-- Claim C4: on a generation action where both the custom prompt and the
document text are non-empty, the resolved context is the custom prompt,
the whole quiz generation consumes exactly that custom prompt, and (when
the two strings differ) the resolved context is not the document text. -/
theorem generate_prefers_custom_prompt (s : SessionState) (n : Nat)
    (infer : String → HttpOutcome)
    (h1 : s.custom_prompt ≠ "") (h2 : s.pdf_text ≠ "") :
    resolve_context s = s.custom_prompt
      ∧ generate_handler s ContentType.quiz n infer
          = Except.map (fun q => { s with quiz := q, user_answers := [] })
              (generate_quiz s.custom_prompt n infer)
      ∧ (s.custom_prompt ≠ s.pdf_text → resolve_context s ≠ s.pdf_text) := by
  have hres : resolve_context s = s.custom_prompt := by
    simp [resolve_context, h1]
  refine ⟨hres, ?_, ?_⟩
  · simp only [generate_handler, hres]
    cases generate_quiz s.custom_prompt n infer <;> rfl
  · intro hne
    rw [hres]
    exact hne

/-- Witness for `generate_prefers_custom_prompt`: a state with document
text `doc` and custom prompt `ask` resolves to `ask`. -/
theorem generate_prefers_custom_prompt_witness :
    (SessionState.mk "doc" "ask" none [] none).custom_prompt ≠ ""
      ∧ (SessionState.mk "doc" "ask" none [] none).pdf_text ≠ ""
      ∧ resolve_context (SessionState.mk "doc" "ask" none [] none) = "ask"
      ∧ generate_handler (SessionState.mk "doc" "ask" none [] none) ContentType.quiz 1
            (fun _ => HttpOutcome.requestException "down")
          = Except.map (fun q => SessionState.mk "doc" "ask" q [] none)
              (generate_quiz "ask" 1 (fun _ => HttpOutcome.requestException "down")) := by
  have h := generate_prefers_custom_prompt (SessionState.mk "doc" "ask" none [] none) 1
    (fun _ => HttpOutcome.requestException "down") (by decide) (by decide)
  exact ⟨by decide, by decide, h.1, h.2.1⟩

/-- Claim C9: when a generation action of kind Quiz takes a handled
failure path (inference failed, or the response did not parse), the
session state is still modified: the quiz is set to absent and the answer
sheet is reset to empty, so the previously loaded quiz and its recorded
answers do not survive the failed regeneration. -/
theorem failed_generation_clears_previous_quiz (s : SessionState) (n : Nat)
    (infer : String → HttpOutcome)
    (h : generate_quiz (resolve_context s) n infer = Except.ok none) :
    generate_handler s ContentType.quiz n infer
      = Except.ok { s with quiz := none, user_answers := [] } := by
  simp only [generate_handler, h]

/-- Witness for `failed_generation_clears_previous_quiz`: a 500 status
from the inference endpoint wipes the previously loaded quiz and its
recorded answer. -/
theorem failed_generation_clears_previous_quiz_witness :
    generate_quiz "doc" 1 (fun _ => HttpOutcome.response 500 "err") = Except.ok none
      ∧ generate_handler (SessionState.mk "doc" "" (some (Json.str "old")) [(0, "B")] none)
          ContentType.quiz 1 (fun _ => HttpOutcome.response 500 "err")
          = Except.ok (SessionState.mk "doc" "" none [] none) :=
  ⟨rfl,
   failed_generation_clears_previous_quiz
     (SessionState.mk "doc" "" (some (Json.str "old")) [(0, "B")] none) 1
     (fun _ => HttpOutcome.response 500 "err") rfl⟩

/-- Claim C8: for every context and every positive question count `n`, the
quiz task string textually requests exactly `n` questions (it opens with
the sentence naming that number), instructs 4 labeled options per question
with a single correct label, and forbids meta-level questions about the
quiz itself. -/
theorem generate_quiz_task_requests (context : String) (n : Nat) (h : 0 < n) :
    (∃ rest, generate_quiz_task context n
        = "Generate a quiz with " ++ toString n ++ " multiple-choice questions" ++ rest)
      ∧ (∃ p q, generate_quiz_task context n
          = p ++ "provide 4 options (A, B, C, D) and indicate the correct answer" ++ q)
      ∧ (∃ p q, generate_quiz_task context n
          = p ++ "Do not include meta-level questions" ++ q) := by
  refine ⟨⟨" based on the given context: \"" ++ context ++ "\". \n    For each question, "
        ++ "provide 4 options (A, B, C, D) and indicate the correct answer"
        ++ ".\n    Ensure the questions are relevant to the topic: " ++ context
        ++ qtGrammarNote ++ "Do not include meta-level questions" ++ qtFormatNote, ?_⟩,
      ⟨"Generate a quiz with " ++ toString n ++ " multiple-choice questions"
        ++ " based on the given context: \"" ++ context ++ "\". \n    For each question, ",
       ".\n    Ensure the questions are relevant to the topic: " ++ context
        ++ qtGrammarNote ++ "Do not include meta-level questions" ++ qtFormatNote, ?_⟩,
      ⟨"Generate a quiz with " ++ toString n ++ " multiple-choice questions"
        ++ " based on the given context: \"" ++ context ++ "\". \n    For each question, "
        ++ "provide 4 options (A, B, C, D) and indicate the correct answer"
        ++ ".\n    Ensure the questions are relevant to the topic: " ++ context
        ++ qtGrammarNote, qtFormatNote, ?_⟩⟩
  all_goals simp only [generate_quiz_task, ← String.append_assoc]

/-- Witness for `generate_quiz_task_requests` at `n = 5`: the instruction
string requests exactly 5 questions. -/
theorem generate_quiz_task_requests_witness :
    0 < 5
      ∧ ((∃ rest, generate_quiz_task "history" 5
          = "Generate a quiz with " ++ toString 5 ++ " multiple-choice questions" ++ rest)
        ∧ (∃ p q, generate_quiz_task "history" 5
            = p ++ "provide 4 options (A, B, C, D) and indicate the correct answer" ++ q)
        ∧ (∃ p q, generate_quiz_task "history" 5
            = p ++ "Do not include meta-level questions" ++ q)) :=
  ⟨by decide, generate_quiz_task_requests "history" 5 (by decide)⟩
